import Mathlib

/-!
Verification of the Astarte device SDK core (Rust) against its natural-language
specification.  Rust definitions are shallowly embedded: each Lean definition
carries a doc comment naming the Rust item it translates.  Items of the crate
that are not part of the provided sources (the value type, the interface
catalog, the payload codec, the validators) are modelled from the spec and
marked as such.
-/

namespace Astarte

/-- Decidable equality of `Except` results, for evaluating the embedded fallible
operations on concrete inputs. -/
instance instDecEqExcept {ε α : Type} [DecidableEq ε] [DecidableEq α] :
    DecidableEq (Except ε α) := fun a b =>
  match a, b with
  | Except.ok x, Except.ok y =>
    if h : x = y then Decidable.isTrue (h ▸ rfl)
    else Decidable.isFalse (fun hc => h (Except.ok.inj hc))
  | Except.error x, Except.error y =>
    if h : x = y then Decidable.isTrue (h ▸ rfl)
    else Decidable.isFalse (fun hc => h (Except.error.inj hc))
  | Except.ok _, Except.error _ => Decidable.isFalse (fun hc => Except.noConfusion hc)
  | Except.error _, Except.ok _ => Decidable.isFalse (fun hc => Except.noConfusion hc)

/-- `Ownership` (interface module, re-exported by `src/store/mod.rs`): who owns a
property or interface — the device or the server. -/
inductive Ownership
  | device
  | server
deriving DecidableEq

/-- Modelled from the spec: the tagged value variant set of §3 "Value (A)" from the
missing `src/types.rs` (`AstarteType`).  Scalar carriers are abstracted to integers
and strings; no claim depends on floating-point arithmetic, only on structural
equality of stored values. -/
inductive AstarteType
  | double (v : Int)
  | integer (v : Int)
  | boolean (v : Bool)
  | longInteger (v : Int)
  | string (v : String)
  | binaryBlob (v : List Nat)
  | dateTime (v : Int)
  | doubleArray (v : List Int)
  | integerArray (v : List Int)
  | booleanArray (v : List Bool)
  | longIntegerArray (v : List Int)
  | stringArray (v : List String)
  | binaryBlobArray (v : List (List Nat))
  | dateTimeArray (v : List Int)
  | unset
deriving DecidableEq

/-- Modelled from the spec: `mapping_type ∈ Value variants` (§3 "Mapping"), the type
tag a mapping declares for its values (missing `src/interface` mapping module). -/
inductive MappingType
  | double
  | integer
  | boolean
  | longInteger
  | string
  | binaryBlob
  | dateTime
  | doubleArray
  | integerArray
  | booleanArray
  | longIntegerArray
  | stringArray
  | binaryBlobArray
  | dateTimeArray
deriving DecidableEq

/-- The type tag of a value: `none` for `Unset`.  Used to model the Rust
`PartialEq<MappingType> for AstarteType` comparison of a value against a mapping's
declared type (spec §4.A: equality is value-typed). -/
def tagOf : AstarteType → Option MappingType
  | .double _ => some .double
  | .integer _ => some .integer
  | .boolean _ => some .boolean
  | .longInteger _ => some .longInteger
  | .string _ => some .string
  | .binaryBlob _ => some .binaryBlob
  | .dateTime _ => some .dateTime
  | .doubleArray _ => some .doubleArray
  | .integerArray _ => some .integerArray
  | .booleanArray _ => some .booleanArray
  | .longIntegerArray _ => some .longIntegerArray
  | .stringArray _ => some .stringArray
  | .binaryBlobArray _ => some .binaryBlobArray
  | .dateTimeArray _ => some .dateTimeArray
  | .unset => none

/-- One stored property row, `StoredProp` / `OptStoredProp` of `src/src/store/mod.rs`
(lines 180-206): uniqueness key `(interface, path)`; `value = none` is the unset
tombstone of an `OptStoredProp`. -/
structure StoredEntry where
  interface : String
  path : String
  value : Option AstarteType
  interfaceMajor : Int
  ownership : Ownership
deriving DecidableEq

/-- The property store state backing the `PropertyStore` trait of
`src/src/store/mod.rs`: a list of rows keyed by `(interface, path)`. -/
abbrev PropStoreState : Type := List StoredEntry

/-- Key equality of two rows against an `(interface, path)` pair. -/
def StoredEntry.keyIs (e : StoredEntry) (i p : String) : Bool :=
  e.interface == i && e.path == p

/-- `PropertyStore::load_all_props` (`src/src/store/mod.rs` line 153): all stored
property rows, excluding unset tombstones (pinned by the in-source test at
`store/mod.rs` lines 319-337: after `unset_prop`, `load_all_props` is empty while
`device_props_with_unset` still returns the row). -/
def loadAllProps (st : PropStoreState) : List StoredEntry :=
  st.filter (fun e => e.value.isSome)

/-- `PropertyStore::device_props_with_unset` (`src/src/store/mod.rs` lines 174-177):
all device-owned rows, tombstones included. -/
def devicePropsWithUnset (st : PropStoreState) : List StoredEntry :=
  st.filter (fun e => e.ownership == Ownership.device)

/-- `PropertyStore::delete_prop` (`src/src/store/mod.rs` lines 141-148): removes the
row with the given key unconditionally. -/
def deleteProp (st : PropStoreState) (i p : String) : PropStoreState :=
  st.filter (fun e => !(e.keyIs i p))

/-- `PropertyStore::store_prop` (`src/src/store/mod.rs` lines 116-120): an upsert
keyed by `(interface, path)` (spec §4.F). -/
def storeProp (st : PropStoreState) (e : StoredEntry) : PropStoreState :=
  e :: deleteProp st e.interface e.path

/-- `Mqtt::purge_properties` (`src/src/connection/mqtt.rs` lines 250-274): loads all
stored properties via `load_all_props` and deletes every one whose concatenation
`"<interface><path>"` is not contained in the decoded purge set. -/
def purgeProperties (paths : List String) (st : PropStoreState) : PropStoreState :=
  (loadAllProps st).foldl
    (fun acc sp =>
      if paths.contains (sp.interface ++ sp.path) then acc
      else deleteProp acc sp.interface sp.path)
    st

/-- Modelled from the spec: an installed interface as the catalog and the reconnect
handshake see it (§3 "Interface (B)"), from the missing `src/interface` module.
`endpoints` are the mapping endpoint templates (used by
`remove_properties_from_store`). -/
structure CatalogInterface where
  interfaceName : String
  versionMajor : Int
  versionMinor : Int
  ownership : Ownership
  endpoints : List String
deriving DecidableEq

/-- Modelled from the spec: `Interfaces::get_property(name)` of the missing
`src/interfaces.rs` — the installed interface with the given name, when present
(§4.C catalog operations; §4.J step 1 keeps a stored prop iff "its interface is
present with matching major and ownership=Device"). -/
def getProperty (catalog : List CatalogInterface) (name : String) :
    Option CatalogInterface :=
  catalog.find? (fun i => i.interfaceName == name)

/-- Insert a string into a sorted list (helper for the introspection string). -/
def insertSortedString (x : String) : List String → List String
  | [] => [x]
  | y :: ys => if x < y then x :: y :: ys else y :: insertSortedString x ys

/-- Modelled from the spec: `Interfaces::get_introspection_string` (§3
"Interfaces (C)"): the sorted list `name:major:minor` joined by `;`. -/
def getIntrospectionString (catalog : List CatalogInterface) : String :=
  let entries := catalog.map (fun i =>
    i.interfaceName ++ ":" ++ toString i.versionMajor ++ ":" ++ toString i.versionMinor)
  String.intercalate ";" (entries.foldr insertSortedString [])

/-- A payload transmitted by the MQTT client: a text payload (introspection string,
empty-cache sentinel) or a serialized value document (`Payload::new(&prop.value)`). -/
inductive MqttPayload
  | text (s : String)
  | value (v : Option AstarteType)
deriving DecidableEq

/-- One observable action of the MQTT client (`AsyncClient::subscribe` /
`AsyncClient::publish` in `src/src/connection/mqtt.rs`). -/
inductive MqttAction
  | subscribe (topic : String)
  | publish (topic : String) (payload : MqttPayload)
deriving DecidableEq

/-- `Introspection::filter_device_properties` (`src/src/connection/mqtt.rs` lines
85-99): keep a stored prop iff `interfaces.get_property` finds its interface with
ownership `Device` and matching major version. -/
def filterDeviceProperties (catalog : List CatalogInterface)
    (props : List StoredEntry) : List StoredEntry :=
  props.filter (fun prop =>
    match getProperty catalog prop.interface with
    | some i => i.ownership == Ownership.device && i.versionMajor == prop.interfaceMajor
    | none => false)

/-- `Introspection::filter_server_interfaces` (`src/src/connection/mqtt.rs` lines
101-109): the names of the server-owned interfaces of the catalog. -/
def filterServerInterfaces (catalog : List CatalogInterface) : List String :=
  catalog.filterMap (fun i =>
    match i.ownership with
    | Ownership.server => some i.interfaceName
    | Ownership.device => none)

/-- `Mqtt::subscribe_server_interfaces` (`src/src/connection/mqtt.rs` lines 194-215):
subscribe to the purge-properties control topic, then to `<client_id>/<iface>/#` for
every server-owned interface. -/
def subscribeServerInterfacesActions (cid : String) (serverInterfaces : List String) :
    List MqttAction :=
  MqttAction.subscribe (cid ++ "/control/consumer/properties") ::
    serverInterfaces.map (fun iface => MqttAction.subscribe (cid ++ "/" ++ iface ++ "/#"))

/-- `Registry::send_introspection` for `Mqtt` (`src/src/connection/mqtt.rs` lines
417-426): publish the introspection string to `<client_id>`. -/
def sendIntrospectionActions (cid introspection : String) : List MqttAction :=
  [MqttAction.publish cid (MqttPayload.text introspection)]

/-- `Mqtt::send_emptycache` (`src/src/connection/mqtt.rs` lines 217-226): publish the
sentinel `"1"` to `<client_id>/control/emptyCache`. -/
def sendEmptycacheActions (cid : String) : List MqttAction :=
  [MqttAction.publish (cid ++ "/control/emptyCache") (MqttPayload.text "1")]

/-- `Mqtt::send_device_properties` (`src/src/connection/mqtt.rs` lines 228-248):
publish each surviving device property's serialized value to
`<client_id>/<interface><path>`. -/
def sendDevicePropertiesActions (cid : String) (props : List StoredEntry) :
    List MqttAction :=
  props.map (fun prop =>
    MqttAction.publish (cid ++ "/" ++ prop.interface ++ prop.path)
      (MqttPayload.value prop.value))

/-- `Mqtt::connack` (`src/src/connection/mqtt.rs` lines 167-192): on
`session_present` return immediately; otherwise build `Introspection::from_device`
(`load_all_props` filtered by `filter_device_properties`, plus the server interface
list and the introspection string, lines 111-128) and run, in order: subscribe to
the server interfaces, send the introspection, send the empty-cache sentinel, send
the device properties. -/
def connackActions (cid : String) (sessionPresent : Bool)
    (catalog : List CatalogInterface) (st : PropStoreState) : List MqttAction :=
  if sessionPresent then []
  else
    let deviceProperties := filterDeviceProperties catalog (loadAllProps st)
    let serverInterfaces := filterServerInterfaces catalog
    subscribeServerInterfacesActions cid serverInterfaces ++
      sendIntrospectionActions cid (getIntrospectionString catalog) ++
      sendEmptycacheActions cid ++
      sendDevicePropertiesActions cid deviceProperties

/-- `Mqtt::send` (`src/src/connection/mqtt.rs` lines 298-321): one publish on the
topic `<client_id>/<interface_name><path-argument>`. -/
def mqttSendTopic (cid interfaceName pathArg : String) : String :=
  cid ++ "/" ++ interfaceName ++ pathArg

/-- `Mqtt::send_individual` (`src/src/connection/mqtt.rs` lines 376-384): serializes
the payload and calls `Mqtt::send` passing `mapping.mapping().endpoint()` — the
endpoint template of the resolved mapping — as the path component of the topic.
(The `Connection::send_individual` trait it implements, `src/src/connection/mod.rs`
lines 80-86, declares a `path` parameter carrying the caller-supplied concrete
path; this implementation has no such parameter.) -/
def sendIndividualTopic (cid interfaceName endpoint : String) : String :=
  mqttSendTopic cid interfaceName endpoint

/-- The topic the spec prescribes for interface data (§4.H "Outgoing publish topic
for interface data: `<client_id>/<interface_name><path>`", with `<path>` the
caller-supplied concrete path).  Stated from the spec's words, to be compared with
`sendIndividualTopic`. -/
def specSendTopic (cid interfaceName callerPath : String) : String :=
  cid ++ "/" ++ interfaceName ++ callerPath

/-- A stored property row of the store generation used by `src/src/lib.rs` and
`src/src/store/sqlite.rs` (`StoredProp` without an ownership column,
`sqlite.rs` lines 66-87): an explicit unset is stored as the value
`AstarteType::Unset` (see `test_property_set_unset`, `lib.rs` lines 1130-1183). -/
structure PropEntry where
  interface : String
  path : String
  value : AstarteType
  interfaceMajor : Int
deriving DecidableEq

namespace DeviceStore

/-- `PropertyStore::delete_prop` as used through `StoreWrapper` by `src/src/lib.rs`
(`sqlite.rs` lines 204-210): remove the `(interface, path)` row. -/
def deleteProp (st : List PropEntry) (i p : String) : List PropEntry :=
  st.filter (fun e => !(e.interface == i && e.path == p))

/-- `PropertyStore::store_prop` (`sqlite.rs` lines 142-167): an upsert keyed by
`(interface, path)` (spec §4.F "`store_prop` is an upsert"). -/
def storeProp (st : List PropEntry) (i p : String) (v : AstarteType) (major : Int) :
    List PropEntry :=
  { interface := i, path := p, value := v, interfaceMajor := major } :: deleteProp st i p

/-- `PropertyStore::load_prop` (`sqlite.rs` lines 169-202): fetch the row; when the
stored major differs from the expected one, delete the row and return `None`. -/
def loadProp (st : List PropEntry) (i p : String) (major : Int) :
    Option AstarteType × List PropEntry :=
  match st.find? (fun e => e.interface == i && e.path == p) with
  | none => (none, st)
  | some e =>
    if e.interfaceMajor == major then (some e.value, st)
    else (none, deleteProp st i p)

end DeviceStore

/-- The fields of a resolved mapping reference (`MappingRef<&Interface>` of the
missing `src/interfaces.rs`) that the send pipeline reads; modelled from the spec
§3 "Mapping" / "Interface".  `isProperty` is `Interface::is_property()` of the
enclosing interface. -/
structure Mapping where
  interfaceName : String
  endpoint : String
  mappingType : MappingType
  explicitTimestamp : Bool
  allowUnset : Bool
  isProperty : Bool
  versionMajor : Int
deriving DecidableEq

/-- `AstarteDeviceSdk::property` (`src/src/lib.rs` lines 664-704): load the stored
value with the mapping's major; a stored `Unset` on a mapping that does not allow
unset, or a stored value whose type differs from the mapping type, deletes the row
and yields `None`. -/
def propertyGet (m : Mapping) (p : String) (st : List PropEntry) :
    Option AstarteType × List PropEntry :=
  let r := DeviceStore.loadProp st m.interfaceName p m.versionMajor
  match r.1 with
  | some w =>
    if w = AstarteType.unset then
      if m.allowUnset then (some AstarteType.unset, r.2)
      else (none, DeviceStore.deleteProp r.2 m.interfaceName p)
    else if tagOf w == some m.mappingType then (some w, r.2)
    else (none, DeviceStore.deleteProp r.2 m.interfaceName p)
  | none => (none, r.2)

/-- `AstarteDeviceSdk::is_property_stored` (`src/src/lib.rs` lines 712-734): `none`
when the interface is not a property; `some true` when the stored value equals the
new one (the Rust `Some(Ok(_))`); `some false` otherwise (the Rust `Some(Err(_))`,
also when nothing is stored). -/
def isPropertyStored (m : Mapping) (p : String) (new : AstarteType)
    (st : List PropEntry) : Option Bool × List PropEntry :=
  if m.isProperty then
    let r := propertyGet m p st
    match r.1 with
    | some v => (some (v == new), r.2)
    | none => (some false, r.2)
  else (none, st)

/-- Modelled from the spec: validation error kinds (§7 "timestamp policy
violation") of the missing `src/validate.rs`. -/
inductive ValidationError
  | unexpectedTimestamp
  | missingTimestamp
deriving DecidableEq

/-- Modelled from the spec: payload codec error kinds (§4.E) of the missing
`src/payload.rs`. -/
inductive PayloadError
  | unsetNotAllowed
  | unexpectedTimestamp
  | objectMismatch
deriving DecidableEq

/-- Error of a send call (`crate::Error` restricted to the variants the send
pipeline produces, `src/src/error.rs`). -/
inductive SendError
  | validation (e : ValidationError)
  | payload (e : PayloadError)
deriving DecidableEq

/-- The wire envelope (§4.E): a document with the value and the optional
timestamp, or the nested document of an object aggregation. -/
inductive WirePayload
  | individual (v : AstarteType) (t : Option Int)
  | object (kvs : List (String × AstarteType)) (t : Option Int)
deriving DecidableEq

/-- Modelled from the spec: `validate_send_individual` of the missing
`src/validate.rs` — §4.I step 3 "Validate timestamp vs `explicit_timestamp`". -/
def validateSendIndividual (m : Mapping) (ts : Option Int) :
    Except ValidationError Unit :=
  if ts.isSome && !m.explicitTimestamp then Except.error ValidationError.unexpectedTimestamp
  else if ts.isNone && m.explicitTimestamp then Except.error ValidationError.missingTimestamp
  else Except.ok ()

/-- Modelled from the spec: `payload::serialize_individual` (§4.E) — fails with
`PayloadError::Unset` on an `Unset` value for a non-unsettable mapping and with
`UnexpectedTimestamp` when a timestamp is given and `explicit_timestamp` is false. -/
def serializeIndividual (m : Mapping) (v : AstarteType) (ts : Option Int) :
    Except PayloadError WirePayload :=
  if v == AstarteType.unset && !m.allowUnset then Except.error PayloadError.unsetNotAllowed
  else if ts.isSome && !m.explicitTimestamp then Except.error PayloadError.unexpectedTimestamp
  else Except.ok (WirePayload.individual v ts)

/-- The mutable state a send call touches: the property store and the sequence of
publishes that reached the MQTT client, in order. -/
structure SendState where
  store : List PropEntry
  published : List (String × WirePayload)
deriving DecidableEq

/-- `AstarteDeviceSdk::send_store_impl` after the validation step
(`src/src/lib.rs` lines 788-817): check `is_property_stored`; on `Some(Ok)` return
success without transmitting; otherwise serialize and publish via
`Mqtt::send_individual` (which uses the mapping endpoint as topic path component);
on `Some(Err)` store the new value after the successful send. -/
def sendStoreRest (cid : String) (m : Mapping) (p : String) (data : AstarteType)
    (ts : Option Int) (s : SendState) : Except SendError Unit × SendState :=
  let propStored := isPropertyStored m p data s.store
  let s1 : SendState := { s with store := propStored.2 }
  if propStored.1 == some true then (Except.ok (), s1)
  else
    match serializeIndividual m data ts with
    | Except.error e => (Except.error (SendError.payload e), s1)
    | Except.ok buf =>
      let s2 : SendState :=
        { s1 with
          published :=
            s1.published ++ [(sendIndividualTopic cid m.interfaceName m.endpoint, buf)] }
      if propStored.1 == some false then
        (Except.ok (),
          { s2 with store := DeviceStore.storeProp s2.store m.interfaceName p data m.versionMajor })
      else (Except.ok (), s2)

/-- `AstarteDeviceSdk::send_store_impl` (`src/src/lib.rs` lines 764-818).  The
interface/mapping lookup and the host-value coercion are elided: the resolved
mapping and the coerced value are taken as arguments.  A failed
`validate_send_individual` returns the error only under `#[cfg(debug_assertions)]`
(lines 781-786), modelled by the `debug` flag; otherwise the failure is only
logged and the call proceeds. -/
def sendStoreImpl (cid : String) (debug : Bool) (m : Mapping) (p : String)
    (data : AstarteType) (ts : Option Int) (s : SendState) :
    Except SendError Unit × SendState :=
  match validateSendIndividual m ts with
  | Except.error e =>
    if debug then (Except.error (SendError.validation e), s)
    else sendStoreRest cid m p data ts s
  | Except.ok _ => sendStoreRest cid m p data ts s

/-- The fields of an object-aggregation reference (`ObjectRef` of the missing
`src/interfaces.rs`) that the object send pipeline reads; modelled from the spec
§3 "Interface (B)".  `mappings` maps each trailing endpoint level to its type. -/
structure ObjectRefModel where
  interfaceName : String
  explicitTimestamp : Bool
  mappings : List (String × MappingType)
deriving DecidableEq

/-- Modelled from the spec: `validate_send_object` of the missing
`src/validate.rs` — the timestamp policy of the object's shared
`explicit_timestamp` flag. -/
def validateSendObject (o : ObjectRefModel) (ts : Option Int) :
    Except ValidationError Unit :=
  if ts.isSome && !o.explicitTimestamp then Except.error ValidationError.unexpectedTimestamp
  else if ts.isNone && o.explicitTimestamp then Except.error ValidationError.missingTimestamp
  else Except.ok ()

/-- Modelled from the spec: `payload::serialize_object` (§4.E) — fails unless the
key set of the aggregate equals the object's mapping names exactly and each value
matches the corresponding mapping type. -/
def serializeObject (o : ObjectRefModel) (agg : List (String × AstarteType))
    (ts : Option Int) : Except PayloadError WirePayload :=
  if o.mappings.all (fun nt => (agg.find? (fun kv => kv.1 == nt.1)).any (fun kv => tagOf kv.2 == some nt.2))
      && agg.all (fun kv => o.mappings.any (fun nt => nt.1 == kv.1)) then
    Except.ok (WirePayload.object agg ts)
  else Except.error PayloadError.objectMismatch

/-- `AstarteDeviceSdk::send_object_impl` (`src/src/lib.rs` lines 820-859); the
interface lookup, aggregation check and `astarte_aggregate` conversion are elided:
the object reference and the aggregate map are taken as arguments.  A failed
`validate_send_object` returns the error only under `#[cfg(debug_assertions)]`
(lines 848-853); `Mqtt::send_object` publishes on the topic built from the
caller-supplied path (`src/src/connection/mqtt.rs` lines 386-395). -/
def sendObjectImpl (cid : String) (debug : Bool) (o : ObjectRefModel) (p : String)
    (agg : List (String × AstarteType)) (ts : Option Int) (s : SendState) :
    Except SendError Unit × SendState :=
  let rest : Except SendError Unit × SendState :=
    match serializeObject o agg ts with
    | Except.error e => (Except.error (SendError.payload e), s)
    | Except.ok buf =>
      (Except.ok (),
        { s with published := s.published ++ [(mqttSendTopic cid o.interfaceName p, buf)] })
  match validateSendObject o ts with
  | Except.error e =>
    if debug then (Except.error (SendError.validation e), s) else rest
  | Except.ok _ => rest

/-- `Interfaces::remove` through `AstarteDeviceSdk::remove_interface_from_map`
(`src/src/lib.rs` lines 861-875): take the interface out of the catalog, returning
it, or `none` when absent. -/
def removeInterfaceFromMap (catalog : List CatalogInterface) (name : String) :
    Option CatalogInterface × List CatalogInterface :=
  match catalog.find? (fun i => i.interfaceName == name) with
  | none => (none, catalog)
  | some i => (some i, catalog.filter (fun j => !(j.interfaceName == name)))

/-- `AstarteDeviceSdk::remove_properties_from_store` (`src/src/lib.rs` lines
877-897): look the interface up in the (current) catalog via `get_property`; when
absent do nothing; otherwise delete, for each of its mappings, the row keyed by
the mapping's endpoint template. -/
def removePropertiesFromStore (catalog : List CatalogInterface) (name : String)
    (store : List PropEntry) : List PropEntry :=
  match getProperty catalog name with
  | none => store
  | some i => i.endpoints.foldl (fun st ep => DeviceStore.deleteProp st name ep) store

/-- `AstarteDeviceSdk::remove_interface` (`src/src/lib.rs` lines 517-529): first
remove the interface from the catalog (error when not installed), then call
`remove_properties_from_store`, which re-reads the catalog.  The introspection
re-publish and the unsubscribe of server interfaces do not touch the store and
are elided. -/
def removeInterface (name : String) (catalog : List CatalogInterface)
    (store : List PropEntry) :
    Except Unit (List CatalogInterface × List PropEntry) :=
  match removeInterfaceFromMap catalog name with
  | (none, _) => Except.error ()
  | (some _, catalog') =>
    Except.ok (catalog', removePropertiesFromStore catalog' name store)

namespace Sqlite

/-- Modelled from the spec: the BSON document `payload::serialize_individual(value,
None)` stores (missing `src/payload.rs`); §8 guarantees the serialize/deserialize
round-trip, so the document is carried as its decoded value. -/
structure BsonDoc where
  v : AstarteType
deriving DecidableEq

/-- A row of the `properties` table as `SqliteStore` reads it (`StoredRecord`,
`src/src/store/sqlite.rs` lines 66-72): the value is the serialized blob. -/
structure Row where
  interface : String
  path : String
  value : BsonDoc
  interfaceMajor : Int
deriving DecidableEq

/-- `SqliteStore::delete_prop` (`src/src/store/sqlite.rs` lines 204-210). -/
def deleteProp (st : List Row) (i p : String) : List Row :=
  st.filter (fun e => !(e.interface == i && e.path == p))

/-- `SqliteStore::store_prop` (`src/src/store/sqlite.rs` lines 142-167): serialize
the value and upsert the `(interface, path)` row (spec §4.F and §6 "primary key
`(interface, path)`"; the `queries/store_prop.sql` file is not part of the
sources). -/
def storeProp (st : List Row) (i p : String) (v : AstarteType) (major : Int) :
    List Row :=
  { interface := i, path := p, value := BsonDoc.mk v, interfaceMajor := major } ::
    deleteProp st i p

/-- `SqliteStore::load_prop` (`src/src/store/sqlite.rs` lines 169-202): fetch the
row; on a stored major different from the expected one, delete the row and return
`None`; otherwise deserialize the stored payload. -/
def loadProp (st : List Row) (i p : String) (major : Int) :
    Option AstarteType × List Row :=
  match st.find? (fun e => e.interface == i && e.path == p) with
  | none => (none, st)
  | some e =>
    if e.interfaceMajor == major then (some e.value.v, st)
    else (none, deleteProp st i p)

end Sqlite

/-- `PropertyInterface` as consumed by `src/src/transport/grpc/store.rs` (imported
from the store module; not present in the provided `store/mod.rs`, whose
`StoreInterfaceData` carries the same data): an interface name with its
ownership. -/
structure PropertyInterfaceData where
  name : String
  ownership : Ownership
deriving DecidableEq

/-- `PropertyMapping` as consumed by `src/src/transport/grpc/store.rs`: the
interface data plus the mapping path. -/
structure PropertyMappingData where
  interfaceData : PropertyInterfaceData
  path : String
deriving DecidableEq

/-- `PropertyStore::load_prop` of the wrapped local store in the generation
`grpc/store.rs` targets (`src/src/store/mod.rs` lines 125-132 and the in-source
test at lines 282-323): fetch by `(interface, path)`; tombstones load as `None`;
a major mismatch deletes the row. -/
def localLoadProp (st : PropStoreState) (pm : PropertyMappingData) (major : Int) :
    Option AstarteType × PropStoreState :=
  match st.find? (fun e => e.keyIs pm.interfaceData.name pm.path) with
  | none => (none, st)
  | some e =>
    if e.interfaceMajor == major then (e.value, st)
    else (none, deleteProp st pm.interfaceData.name pm.path)

/-- `PropertyStore::unset_prop` of the wrapped local store (`src/src/store/mod.rs`
lines 133-140; spec §4.F: retain a tombstone with `value = Unset`): the row's
value becomes the tombstone. -/
def localUnsetProp (st : PropStoreState) (pm : PropertyMappingData) : PropStoreState :=
  st.map (fun e => if e.keyIs pm.interfaceData.name pm.path then { e with value := none } else e)

/-- `PropertyStore::interface_props` of the wrapped local store
(`src/src/store/mod.rs` lines 160-166; spec §4.F: non-tombstone entries of the
interface). -/
def localInterfaceProps (st : PropStoreState) (pi : PropertyInterfaceData) :
    List StoredEntry :=
  st.filter (fun e => e.interface == pi.name && e.value.isSome)

/-- `PropertyStore::server_props` of the wrapped local store
(`src/src/store/mod.rs` lines 157-159). -/
def localServerProps (st : PropStoreState) : List StoredEntry :=
  st.filter (fun e => e.ownership == Ownership.server && e.value.isSome)

/-- `PropertyStore::delete_interface` of the wrapped local store
(`src/src/store/mod.rs` lines 167-173). -/
def localDeleteInterface (st : PropStoreState) (pi : PropertyInterfaceData) :
    PropStoreState :=
  st.filter (fun e => !(e.interface == pi.name))

/-- The message-hub client (`MsgHubClient` of `src/src/transport/grpc/mod.rs`):
the remote, authoritative collection of properties the hub serves.  The RPCs
`get_property`, `get_properties` and `get_all_properties` used by
`src/src/transport/grpc/store.rs` are modelled as total lookups (transport
statuses and proto conversion errors are out of scope of the claims). -/
structure HubClient where
  props : List StoredEntry
deriving DecidableEq

/-- The hub's `get_property(PropertyIdentifier)` RPC result, converted by
`convert::map_property_to_astarte_type`. -/
def HubClient.getProperty (h : HubClient) (interfaceName path : String) :
    Option AstarteType :=
  (h.props.find? (fun e => e.keyIs interfaceName path)).bind (fun e => e.value)

/-- The hub's `get_properties(InterfacesName)` RPC result for a single interface
name, converted by `convert::map_set_stored_properties`. -/
def HubClient.getProperties (h : HubClient) (interfaceName : String) :
    List StoredEntry :=
  h.props.filter (fun e => e.interface == interfaceName)

/-- `GrpcStore` (`src/src/transport/grpc/store.rs` lines 47-59): a wrapped local
store plus the message-hub client. -/
structure GrpcStore where
  store : PropStoreState
  client : HubClient

/-- `GrpcStore::store_prop` (`src/src/transport/grpc/store.rs` lines 132-142):
device-owned properties are not stored (`return Ok(())`); server-owned ones are
delegated to the wrapped store. -/
def GrpcStore.storeProp (g : GrpcStore) (e : StoredEntry) : GrpcStore :=
  if e.ownership == Ownership.device then g
  else { g with store := Astarte.storeProp g.store e }

/-- `GrpcStore::load_prop` (`src/src/transport/grpc/store.rs` lines 144-170):
server ownership delegates to the wrapped store; device ownership asks the hub's
`get_property` RPC. -/
def GrpcStore.loadProp (g : GrpcStore) (pm : PropertyMappingData) (major : Int) :
    Option AstarteType × GrpcStore :=
  if pm.interfaceData.ownership == Ownership.server then
    let r := localLoadProp g.store pm major
    (r.1, { g with store := r.2 })
  else
    (g.client.getProperty pm.interfaceData.name pm.path, g)

/-- `GrpcStore::unset_prop` (`src/src/transport/grpc/store.rs` lines 172-182):
device unsets are not stored (`return Ok(())`); server ones delegate. -/
def GrpcStore.unsetProp (g : GrpcStore) (pm : PropertyMappingData) : GrpcStore :=
  if pm.interfaceData.ownership == Ownership.device then g
  else { g with store := localUnsetProp g.store pm }

/-- `GrpcStore::delete_prop` (`src/src/transport/grpc/store.rs` lines 184-194):
device deletes are ignored (`return Ok(())`); server ones delegate. -/
def GrpcStore.deleteProp (g : GrpcStore) (pm : PropertyMappingData) : GrpcStore :=
  if pm.interfaceData.ownership == Ownership.device then g
  else { g with store := Astarte.deleteProp g.store pm.interfaceData.name pm.path }

/-- `GrpcStore::interface_props` (`src/src/transport/grpc/store.rs` lines 228-252):
server ownership delegates to the wrapped store; device ownership asks the hub's
`get_properties` RPC. -/
def GrpcStore.interfaceProps (g : GrpcStore) (pi : PropertyInterfaceData) :
    List StoredEntry :=
  if pi.ownership == Ownership.server then localInterfaceProps g.store pi
  else g.client.getProperties pi.name

/-- `GrpcStore::delete_interface` (`src/src/transport/grpc/store.rs` lines
254-264): device interfaces are not deleted locally (`return Ok(())`); server ones
delegate. -/
def GrpcStore.deleteInterface (g : GrpcStore) (pi : PropertyInterfaceData) :
    GrpcStore :=
  if pi.ownership == Ownership.device then g
  else { g with store := localDeleteInterface g.store pi }

/-- One event handled by `Device::handle_events` (`src/src/device.rs` lines
251-269): `next_event` returns events one at a time (`arrival` is the position in
that sequence) and each event's decode-and-deliver work runs in a freshly spawned
task taking `decodeTime` units. -/
structure SpawnedEvent where
  arrival : Nat
  decodeTime : Nat
deriving DecidableEq

/-- The instant the spawned task of an event finishes and performs its
consumer-channel send (its spawn at `arrival` plus its decode duration). -/
def SpawnedEvent.completion (e : SpawnedEvent) : Nat := e.arrival + e.decodeTime

/-- Order-preserving insertion by completion time (ties keep arrival order). -/
def insertByCompletion (x : SpawnedEvent) : List SpawnedEvent → List SpawnedEvent
  | [] => [x]
  | y :: ys =>
    if x.completion ≤ y.completion then x :: y :: ys
    else y :: insertByCompletion x ys

/-- The order in which the consumer channel's single receiver observes the events
dispatched by `Device::handle_events` (`src/src/device.rs` lines 251-269): the
loop spawns one unawaited task per event and each task performs the channel send
as its last step, so the receiver sees results ordered by task completion time,
not by arrival. -/
def consumerDeliveryOrder (events : List SpawnedEvent) : List SpawnedEvent :=
  events.foldr insertByCompletion []

/-! ## Concrete stores used to settle individual claims -/

/-- A concrete store: a device property listed by the purge set, a device property
not listed, a server property not listed, and a device tombstone not listed. -/
def c1Store : PropStoreState :=
  [ { interface := "com.a", path := "/p1", value := some (AstarteType.integer 1),
      interfaceMajor := 1, ownership := Ownership.device },
    { interface := "com.a", path := "/p2", value := some (AstarteType.integer 2),
      interfaceMajor := 1, ownership := Ownership.device },
    { interface := "com.b", path := "/p3", value := some (AstarteType.integer 3),
      interfaceMajor := 1, ownership := Ownership.server },
    { interface := "com.a", path := "/p4", value := none,
      interfaceMajor := 1, ownership := Ownership.device } ]

/-- C1, counterexample.  The claim states that after a purge with set
`S = {"com.a/p1"}` every server-owned property remains stored and tombstones are
dropped.  On the code, `purge_properties` iterates `load_all_props` — every
ownership, tombstones excluded — so the server-owned `("com.b", "/p3")` (whose
concatenation is not in `S`) is deleted, while the tombstone `("com.a", "/p4")`
survives: both parts of the claim are false. -/
theorem claim_C1_counterexample :
    ({ interface := "com.b", path := "/p3", value := some (AstarteType.integer 3),
       interfaceMajor := 1, ownership := Ownership.server } : StoredEntry) ∈ c1Store ∧
    ({ interface := "com.b", path := "/p3", value := some (AstarteType.integer 3),
       interfaceMajor := 1, ownership := Ownership.server } : StoredEntry) ∉
      purgeProperties ["com.a/p1"] c1Store ∧
    ({ interface := "com.a", path := "/p4", value := none,
       interfaceMajor := 1, ownership := Ownership.device } : StoredEntry) ∈
      purgeProperties ["com.a/p1"] c1Store := by
  decide

/-- C2, evaluation at the failing input.  `Mqtt::send_individual` builds the
publish topic from the mapping's endpoint template, so for a parameterized
mapping `/%{sensor_id}/name` and the caller-supplied path `/1/name` the
published topic is `<client_id>/<interface>/%{sensor_id}/name` and not the
`<client_id>/<interface><path>` topic of the claim (the spec's §4.H grammar, the
`Connection::send_individual` trait signature and the expectations of the
in-source tests `test_handle_event` / `test_unset_property`). -/
theorem claim_C2_topic_uses_endpoint_template :
    sendIndividualTopic "realm/device_id" "com.example.DP" "/%{sensor_id}/name" =
      specSendTopic "realm/device_id" "com.example.DP" "/%{sensor_id}/name" ∧
    sendIndividualTopic "realm/device_id" "com.example.DP" "/%{sensor_id}/name" ≠
      specSendTopic "realm/device_id" "com.example.DP" "/1/name" := by
  exact ⟨rfl, by decide⟩

/-- A catalog with one installed device-owned property interface with one
parameterized mapping. -/
def c7Catalog : List CatalogInterface :=
  [ { interfaceName := "com.a", versionMajor := 1, versionMinor := 0,
      ownership := Ownership.device, endpoints := ["/%{id}/p"] } ]

/-- A store holding one concrete property instance of that interface. -/
def c7Store : List PropEntry :=
  [ { interface := "com.a", path := "/1/p", value := AstarteType.integer 7,
      interfaceMajor := 1 } ]

/-- C7, evaluation at the failing input.  `remove_interface` removes the interface
from the catalog before `remove_properties_from_store` re-reads the catalog, so
the lookup finds nothing and no stored row is deleted: after a successful
`remove_interface("com.a")` the store still contains the property stored under
`com.a`, contradicting the claim that no property of the interface remains. -/
theorem claim_C7_remove_interface_leaves_store :
    removeInterface "com.a" c7Catalog c7Store = Except.ok ([], c7Store) ∧
    ({ interface := "com.a", path := "/1/p", value := AstarteType.integer 7,
       interfaceMajor := 1 } : PropEntry) ∈ c7Store := by
  exact ⟨rfl, by decide⟩

/-- C8, evaluation at the failing input.  `handle_events` spawns one unawaited
task per event and the consumer-channel send is the last step of each task, so
with a first event whose decode takes 5 units and a second whose decode takes 0,
the receiver observes the second event first — delivery is in completion order,
not arrival order. -/
theorem claim_C8_out_of_order_delivery :
    consumerDeliveryOrder
        [{ arrival := 0, decodeTime := 5 }, { arrival := 1, decodeTime := 0 }] =
      [{ arrival := 1, decodeTime := 0 }, { arrival := 0, decodeTime := 5 }] ∧
    ([{ arrival := 1, decodeTime := 0 }, { arrival := 0, decodeTime := 5 }] :
        List SpawnedEvent) ≠
      [{ arrival := 0, decodeTime := 5 }, { arrival := 1, decodeTime := 0 }] := by
  decide

/-- In a store with pairwise-distinct `(interface, path)` keys, two members with
the same key are the same row. -/
theorem eq_of_mem_of_keyEq {st : List StoredEntry}
    (hnd : st.Pairwise fun a b => a.interface ≠ b.interface ∨ a.path ≠ b.path) :
    ∀ {a b : StoredEntry}, a ∈ st → b ∈ st → a.interface = b.interface →
      a.path = b.path → a = b := by
  induction st with
  | nil => intro a b ha; simp at ha
  | cons x xs ih =>
    rw [List.pairwise_cons] at hnd
    intro a b ha hb hi hp
    rcases List.mem_cons.mp ha with ha1 | ha2
    · rcases List.mem_cons.mp hb with hb1 | hb2
      · exact ha1.trans hb1.symm
      · exfalso
        rcases hnd.1 b hb2 with h | h
        · exact h (ha1 ▸ hi)
        · exact h (ha1 ▸ hp)
    · rcases List.mem_cons.mp hb with hb1 | hb2
      · exfalso
        rcases hnd.1 a ha2 with h | h
        · exact h (hb1 ▸ hi).symm
        · exact h (hb1 ▸ hp).symm
      · exact ih hnd.2 ha2 hb2 hi hp

/-- The purge fold deletes exactly the keys of the snapshot entries that are not
listed: it is a single filter over the starting store. -/
theorem purge_foldl_eq_filter (paths : List String) (l : List StoredEntry) :
    ∀ st : List StoredEntry,
      (l.foldl
        (fun acc sp =>
          if paths.contains (sp.interface ++ sp.path) then acc
          else deleteProp acc sp.interface sp.path) st)
      = st.filter (fun e => l.all (fun sp =>
          paths.contains (sp.interface ++ sp.path) || !(e.keyIs sp.interface sp.path))) := by
  induction l with
  | nil => intro st; simp
  | cons sp l ih =>
    intro st
    simp only [List.foldl_cons, List.all_cons]
    by_cases hc : paths.contains (sp.interface ++ sp.path) = true
    · rw [if_pos hc, ih st]
      congr 1
      funext e
      rw [hc, Bool.true_or, Bool.true_and]
    · rw [if_neg hc, ih (deleteProp st sp.interface sp.path)]
      rw [Bool.not_eq_true] at hc
      unfold deleteProp
      rw [List.filter_filter]
      congr 1
      funext e
      rw [hc, Bool.false_or, Bool.and_comm]

/-- C1 (amended): processing a purge directive with decoded set `S` deletes
exactly the stored non-tombstone properties — of either ownership — whose
`"<interface><path>"` is not in `S`; rows whose concatenation is in `S`, and all
unset tombstones, remain stored (stores keyed uniquely by `(interface, path)`). -/
theorem claim_C1_amended_purge_set_complementary
    (paths : List String) (st : PropStoreState)
    (hnd : st.Pairwise fun a b => a.interface ≠ b.interface ∨ a.path ≠ b.path)
    (e : StoredEntry) :
    e ∈ purgeProperties paths st ↔
      e ∈ st ∧ (e.value = none ∨ paths.contains (e.interface ++ e.path) = true) := by
  unfold purgeProperties
  rw [purge_foldl_eq_filter, List.mem_filter]
  constructor
  · rintro ⟨he, hall⟩
    refine ⟨he, ?_⟩
    by_cases hv : e.value = none
    · exact Or.inl hv
    · right
      have hmem : e ∈ loadAllProps st := by
        refine List.mem_filter.mpr ⟨he, ?_⟩
        simp [Option.isSome_iff_ne_none, hv]
      have hsp := List.all_eq_true.mp hall e hmem
      simpa [StoredEntry.keyIs] using hsp
  · rintro ⟨he, hor⟩
    refine ⟨he, ?_⟩
    rw [List.all_eq_true]
    intro sp hsp
    obtain ⟨hsp_mem, hsp_some⟩ := List.mem_filter.mp hsp
    by_cases hk : e.keyIs sp.interface sp.path = true
    · have hi : e.interface = sp.interface := by
        have := hk
        unfold StoredEntry.keyIs at this
        exact eq_of_beq (Bool.and_elim_left this)
      have hp : e.path = sp.path := by
        have := hk
        unfold StoredEntry.keyIs at this
        exact eq_of_beq (Bool.and_elim_right this)
      have hse : sp = e := eq_of_mem_of_keyEq hnd hsp_mem he hi.symm hp.symm
      subst hse
      rcases hor with hv | hc
      · rw [hv] at hsp_some
        simp at hsp_some
      · have hm : sp.interface ++ sp.path ∈ paths := by simpa using hc
        simp [hm]
    · simp [hk]

/-- Witness for the amended C1: at the concrete store `c1Store` and purge set
`{"com.a/p1"}`, the characterization applies (keys are distinct) and yields that
the tombstone row survives the purge. -/
theorem claim_C1_amended_witness :
    ({ interface := "com.a", path := "/p4", value := none,
       interfaceMajor := 1, ownership := Ownership.device } : StoredEntry) ∈
      purgeProperties ["com.a/p1"] c1Store := by
  exact (claim_C1_amended_purge_set_complementary ["com.a/p1"] c1Store (by decide)
    { interface := "com.a", path := "/p4", value := none,
      interfaceMajor := 1, ownership := Ownership.device }).mpr
    ⟨by decide, Or.inl rfl⟩

/-- After deleting a key, no row with that key is found. -/
theorem sqlite_find_delete_none (st : List Sqlite.Row) (i p : String) :
    (Sqlite.deleteProp st i p).find? (fun e => e.interface == i && e.path == p) =
      none := by
  rw [List.find?_eq_none]
  intro x hx
  have h := (List.mem_filter.mp hx).2
  rw [Bool.not_eq_true'] at h
  simp [h]

/-- C5: `store_prop` followed by `load_prop` with the same major returns the
stored value; `load_prop` with a different expected major returns `None` and
deletes the row, so a repeated `load_prop` with the original major also returns
`None`. -/
theorem claim_C5_sqlite_store_load_major (st : List Sqlite.Row) (i p : String)
    (v : AstarteType) (m m' : Int) (hm : m' ≠ m) :
    Sqlite.loadProp (Sqlite.storeProp st i p v m) i p m =
      (some v, Sqlite.storeProp st i p v m) ∧
    Sqlite.loadProp (Sqlite.storeProp st i p v m) i p m' =
      (none, Sqlite.deleteProp (Sqlite.storeProp st i p v m) i p) ∧
    Sqlite.loadProp (Sqlite.deleteProp (Sqlite.storeProp st i p v m) i p) i p m =
      (none, Sqlite.deleteProp (Sqlite.storeProp st i p v m) i p) := by
  refine ⟨?_, ?_, ?_⟩
  · show Sqlite.loadProp
      ({ interface := i, path := p, value := Sqlite.BsonDoc.mk v, interfaceMajor := m } ::
        Sqlite.deleteProp st i p) i p m = _
    unfold Sqlite.loadProp
    rw [List.find?_cons_of_pos _ (by simp)]
    simp [Sqlite.storeProp]
  · show Sqlite.loadProp
      ({ interface := i, path := p, value := Sqlite.BsonDoc.mk v, interfaceMajor := m } ::
        Sqlite.deleteProp st i p) i p m' = _
    unfold Sqlite.loadProp
    rw [List.find?_cons_of_pos _ (by simp)]
    have hne : (m == m') = false := by
      simp [Ne.symm hm]
    simp [hne, Sqlite.storeProp]
  · unfold Sqlite.loadProp
    rw [sqlite_find_delete_none]

/-- Witness for C5: applied at the concrete property of the in-source store test
(`com.test`, `/test`, integer 23, stored major 1, expected major 2). -/
theorem claim_C5_witness :
    (2 : Int) ≠ 1 ∧
    (Sqlite.loadProp
        (Sqlite.storeProp [] "com.test" "/test" (AstarteType.integer 23) 1)
        "com.test" "/test" 1 =
      (some (AstarteType.integer 23),
        Sqlite.storeProp [] "com.test" "/test" (AstarteType.integer 23) 1) ∧
    Sqlite.loadProp
        (Sqlite.storeProp [] "com.test" "/test" (AstarteType.integer 23) 1)
        "com.test" "/test" 2 =
      (none,
        Sqlite.deleteProp
          (Sqlite.storeProp [] "com.test" "/test" (AstarteType.integer 23) 1)
          "com.test" "/test") ∧
    Sqlite.loadProp
        (Sqlite.deleteProp
          (Sqlite.storeProp [] "com.test" "/test" (AstarteType.integer 23) 1)
          "com.test" "/test")
        "com.test" "/test" 1 =
      (none,
        Sqlite.deleteProp
          (Sqlite.storeProp [] "com.test" "/test" (AstarteType.integer 23) 1)
          "com.test" "/test")) := by
  exact ⟨by decide,
    claim_C5_sqlite_store_load_major [] "com.test" "/test" (AstarteType.integer 23)
      1 2 (by decide)⟩

/-- With pairwise-distinct interface names, the keep-test of
`filter_device_properties` (present in the catalog, ownership `Device`, matching
major — read off a `get_property` lookup) agrees with an existential scan of the
catalog. -/
theorem getProperty_device_major_any (p : StoredEntry) :
    ∀ catalog : List CatalogInterface,
      (catalog.Pairwise fun a b => a.interfaceName ≠ b.interfaceName) →
      (match getProperty catalog p.interface with
        | some i => i.ownership == Ownership.device && i.versionMajor == p.interfaceMajor
        | none => false)
      = catalog.any (fun i => i.interfaceName == p.interface &&
          (i.ownership == Ownership.device && i.versionMajor == p.interfaceMajor)) := by
  intro catalog
  induction catalog with
  | nil => intro _; rfl
  | cons c rest ih =>
    intro hnd
    rw [List.pairwise_cons] at hnd
    by_cases hname : (c.interfaceName == p.interface) = true
    · have hrest : rest.any (fun i => i.interfaceName == p.interface &&
          (i.ownership == Ownership.device && i.versionMajor == p.interfaceMajor)) = false := by
        rw [List.any_eq_false]
        intro x hx
        have hne : c.interfaceName ≠ x.interfaceName := hnd.1 x hx
        have hxp : (x.interfaceName == p.interface) = false := by
          have hcp : c.interfaceName = p.interface := eq_of_beq hname
          rw [beq_eq_false_iff_ne]
          intro hxeq
          exact hne (hcp.trans hxeq.symm)
        simp [hxp]
      simp [getProperty, List.find?_cons, hname, hrest]
    · rw [Bool.not_eq_true] at hname
      have ih' := ih hnd.2
      simp only [getProperty] at ih'
      simp [getProperty, List.find?_cons, hname, ih']

/-- With pairwise-distinct interface names, `filter_device_properties` keeps
exactly the props whose interface appears in the catalog with ownership `Device`
and matching major. -/
theorem filterDeviceProperties_eq_any (catalog : List CatalogInterface)
    (props : List StoredEntry)
    (hnd : catalog.Pairwise fun a b => a.interfaceName ≠ b.interfaceName) :
    filterDeviceProperties catalog props =
      props.filter (fun p => catalog.any (fun i => i.interfaceName == p.interface &&
        (i.ownership == Ownership.device && i.versionMajor == p.interfaceMajor))) := by
  unfold filterDeviceProperties
  congr 1
  funext p
  exact getProperty_device_major_any p catalog hnd

/-- `filter_server_interfaces` is the name list of the server-owned catalog
entries. -/
theorem filterServerInterfaces_eq (catalog : List CatalogInterface) :
    filterServerInterfaces catalog =
      (catalog.filter (fun i => i.ownership == Ownership.server)).map
        (fun i => i.interfaceName) := by
  induction catalog with
  | nil => rfl
  | cons c rest ih =>
    cases hc : c.ownership
    · simpa [filterServerInterfaces, List.filterMap_cons, hc] using ih
    · simpa [filterServerInterfaces, List.filterMap_cons, hc] using ih

/-- C6: on `session_present = true` the connack handler performs no action; on
`session_present = false` it performs, in this order, the subscribe to the
purge-properties control topic, one subscribe per server-owned interface, the
introspection publish to `<client_id>`, the `"1"` publish to
`<client_id>/control/emptyCache`, and one publish per surviving device-owned
property — a stored non-tombstone prop whose interface is in the catalog with
matching major and ownership `Device` — on `<client_id>/<interface><path>`
(catalog names assumed pairwise distinct, as in the interface map). -/
theorem claim_C6_connack_handshake (cid : String) (catalog : List CatalogInterface)
    (st : PropStoreState)
    (hnd : catalog.Pairwise fun a b => a.interfaceName ≠ b.interfaceName) :
    connackActions cid true catalog st = [] ∧
    connackActions cid false catalog st =
      MqttAction.subscribe (cid ++ "/control/consumer/properties") ::
        ((catalog.filter (fun i => i.ownership == Ownership.server)).map
          (fun i => MqttAction.subscribe (cid ++ "/" ++ i.interfaceName ++ "/#")) ++
        MqttAction.publish cid (MqttPayload.text (getIntrospectionString catalog)) ::
        MqttAction.publish (cid ++ "/control/emptyCache") (MqttPayload.text "1") ::
        ((loadAllProps st).filter (fun p => catalog.any (fun i =>
            i.interfaceName == p.interface &&
            (i.ownership == Ownership.device && i.versionMajor == p.interfaceMajor)))).map
          (fun p => MqttAction.publish (cid ++ "/" ++ p.interface ++ p.path)
            (MqttPayload.value p.value))) := by
  constructor
  · rfl
  · unfold connackActions
    rw [if_neg (by simp)]
    rw [filterDeviceProperties_eq_any catalog (loadAllProps st) hnd,
      filterServerInterfaces_eq]
    simp [subscribeServerInterfacesActions, sendIntrospectionActions,
      sendEmptycacheActions, sendDevicePropertiesActions, List.map_map]

/-- Concrete catalog for the C6 witness: one server-owned and one device-owned
interface. -/
def c6Catalog : List CatalogInterface :=
  [ { interfaceName := "com.s", versionMajor := 1, versionMinor := 0,
      ownership := Ownership.server, endpoints := ["/z"] },
    { interfaceName := "com.d", versionMajor := 1, versionMinor := 0,
      ownership := Ownership.device, endpoints := ["/x", "/y"] } ]

/-- Concrete store for the C6 witness: one surviving device prop, one with a
stale major, one server-owned prop. -/
def c6Store : PropStoreState :=
  [ { interface := "com.d", path := "/x", value := some (AstarteType.boolean true),
      interfaceMajor := 1, ownership := Ownership.device },
    { interface := "com.d", path := "/y", value := some (AstarteType.integer 1),
      interfaceMajor := 2, ownership := Ownership.device },
    { interface := "com.s", path := "/z", value := some (AstarteType.integer 2),
      interfaceMajor := 1, ownership := Ownership.server } ]

/-- Witness for C6: at the concrete catalog and store, the handshake action list
is exactly the ordered sequence the claim prescribes. -/
theorem claim_C6_witness :
    connackActions "realm/device_id" false c6Catalog c6Store =
      [ MqttAction.subscribe "realm/device_id/control/consumer/properties",
        MqttAction.subscribe "realm/device_id/com.s/#",
        MqttAction.publish "realm/device_id"
          (MqttPayload.text (getIntrospectionString c6Catalog)),
        MqttAction.publish "realm/device_id/control/emptyCache" (MqttPayload.text "1"),
        MqttAction.publish "realm/device_id/com.d/x"
          (MqttPayload.value (some (AstarteType.boolean true))) ] := by
  have h := (claim_C6_connack_handshake "realm/device_id" c6Catalog c6Store
    (by decide)).2
  rw [h]
  simp [c6Catalog, c6Store, loadAllProps]

/-- C9: for device-owned properties, `GrpcStore`'s `store_prop`, `unset_prop` and
`delete_prop` succeed while leaving the wrapped local store (and the whole store
state) unchanged, and `load_prop` / `interface_props` answer from the message-hub
client with the local store untouched; for server-owned properties every
operation delegates to the wrapped local store. -/
theorem claim_C9_grpc_store_dispatch (g : GrpcStore) (i p : String)
    (v : Option AstarteType) (maj : Int) :
    GrpcStore.storeProp g
        { interface := i, path := p, value := v, interfaceMajor := maj,
          ownership := Ownership.device } = g ∧
    GrpcStore.unsetProp g
        { interfaceData := { name := i, ownership := Ownership.device }, path := p } = g ∧
    GrpcStore.deleteProp g
        { interfaceData := { name := i, ownership := Ownership.device }, path := p } = g ∧
    GrpcStore.loadProp g
        { interfaceData := { name := i, ownership := Ownership.device }, path := p } maj =
      (g.client.getProperty i p, g) ∧
    GrpcStore.interfaceProps g { name := i, ownership := Ownership.device } =
      g.client.getProperties i ∧
    GrpcStore.deleteInterface g { name := i, ownership := Ownership.device } = g ∧
    GrpcStore.storeProp g
        { interface := i, path := p, value := v, interfaceMajor := maj,
          ownership := Ownership.server } =
      { g with store := (storeProp g.store
          { interface := i, path := p, value := v, interfaceMajor := maj,
            ownership := Ownership.server }) } ∧
    GrpcStore.loadProp g
        { interfaceData := { name := i, ownership := Ownership.server }, path := p } maj =
      ((localLoadProp g.store
          { interfaceData := { name := i, ownership := Ownership.server }, path := p } maj).1,
        { g with store := (localLoadProp g.store
            { interfaceData := { name := i, ownership := Ownership.server }, path := p } maj).2 }) ∧
    GrpcStore.unsetProp g
        { interfaceData := { name := i, ownership := Ownership.server }, path := p } =
      { g with store := (localUnsetProp g.store
          { interfaceData := { name := i, ownership := Ownership.server }, path := p }) } ∧
    GrpcStore.deleteProp g
        { interfaceData := { name := i, ownership := Ownership.server }, path := p } =
      { g with store := deleteProp g.store i p } ∧
    GrpcStore.interfaceProps g { name := i, ownership := Ownership.server } =
      localInterfaceProps g.store { name := i, ownership := Ownership.server } ∧
    GrpcStore.deleteInterface g { name := i, ownership := Ownership.server } =
      { g with store := (localDeleteInterface g.store
          { name := i, ownership := Ownership.server }) } := by
  exact ⟨rfl, rfl, rfl, rfl, rfl, rfl, rfl, rfl, rfl, rfl, rfl, rfl⟩

/-- Soundness of `property`: every `Some` value it returns is either of the
mapping's declared type or a legal `Unset`. -/
theorem propertyGet_some_sound (m : Mapping) (p : String) (st : List PropEntry)
    (r : AstarteType) (hr : (propertyGet m p st).1 = some r) :
    tagOf r = some m.mappingType ∨ (r = AstarteType.unset ∧ m.allowUnset = true) := by
  simp only [propertyGet] at hr
  rcases hload2 : DeviceStore.loadProp st m.interfaceName p m.versionMajor with ⟨v, stx⟩
  rw [hload2] at hr
  cases v with
  | none => simp at hr
  | some w =>
    by_cases hw : w = AstarteType.unset
    · by_cases hau : m.allowUnset = true
      · simp [hw, hau] at hr
        exact Or.inr ⟨hr.symm, hau⟩
      · simp [hw, hau] at hr
    · by_cases htag : (tagOf w == some m.mappingType) = true
      · simp [hw, htag] at hr
        exact Or.inl (hr ▸ eq_of_beq htag)
      · simp [hw, htag] at hr

/-- C10: `get_property` self-heals inconsistent storage — for a stored row under
the mapping's `(interface, path)` with matching major, a stored `Unset` on a
mapping with `allow_unset = false`, or a stored value of the wrong type, makes
`property` delete the row and return `None`; and (for any store) every `Some`
value it returns is either of the mapping's type or a legal `Unset`. -/
theorem claim_C10_property_self_heal (m : Mapping) (p : String)
    (st st' : List PropEntry) (e : PropEntry)
    (hfind : st.find? (fun x => x.interface == m.interfaceName && x.path == p) = some e)
    (hmaj : e.interfaceMajor = m.versionMajor) :
    ((e.value = AstarteType.unset ∧ m.allowUnset = false) →
      propertyGet m p st = (none, DeviceStore.deleteProp st m.interfaceName p)) ∧
    ((e.value ≠ AstarteType.unset ∧ tagOf e.value ≠ some m.mappingType) →
      propertyGet m p st = (none, DeviceStore.deleteProp st m.interfaceName p)) ∧
    (∀ r : AstarteType, (propertyGet m p st').1 = some r →
      tagOf r = some m.mappingType ∨ (r = AstarteType.unset ∧ m.allowUnset = true)) := by
  have hload : DeviceStore.loadProp st m.interfaceName p m.versionMajor =
      (some e.value, st) := by
    unfold DeviceStore.loadProp
    rw [hfind]
    simp [hmaj]
  refine ⟨?_, ?_, ?_⟩
  · rintro ⟨hv, hau⟩
    simp [propertyGet, hload, hv, hau]
  · rintro ⟨hw, htag⟩
    simp [propertyGet, hload, hw, htag]
  · exact fun r hr => propertyGet_some_sound m p st' r hr

/-- The mapping of the C10 witness: an integer property that does not allow
unset. -/
def c10Mapping : Mapping :=
  { interfaceName := "com.p", endpoint := "/e", mappingType := MappingType.integer,
    explicitTimestamp := false, allowUnset := false, isProperty := true,
    versionMajor := 1 }

/-- The store of the C10 witness: the row under `("com.p", "/e")` holds a string,
contradicting the integer mapping type. -/
def c10Store : List PropEntry :=
  [ { interface := "com.p", path := "/e", value := AstarteType.string "bad",
      interfaceMajor := 1 } ]

/-- Witness for C10: on the type-mismatched stored row, `property` deletes the
row and returns `None`. -/
theorem claim_C10_witness :
    propertyGet c10Mapping "/e" c10Store =
      (none, DeviceStore.deleteProp c10Store "com.p" "/e") := by
  exact (claim_C10_property_self_heal c10Mapping "/e" c10Store []
    { interface := "com.p", path := "/e", value := AstarteType.string "bad",
      interfaceMajor := 1 }
    (by decide) (by decide)).2.1 ⟨by decide, by decide⟩

/-- The mapping of the C3 counterexample: an individual datastream mapping with a
mandatory timestamp. -/
def c3Mapping : Mapping :=
  { interfaceName := "com.example.DS", endpoint := "/v",
    mappingType := MappingType.integer, explicitTimestamp := true,
    allowUnset := false, isProperty := false, versionMajor := 1 }

/-- C3, counterexample.  With `debug_assertions` disabled (a release build), a
send with a missing mandatory timestamp fails validation, yet the call returns
`Ok` and one message is transmitted: the validation-error return of
`send_store_impl` sits behind `#[cfg(debug_assertions)]`. -/
theorem claim_C3_counterexample :
    validateSendIndividual c3Mapping none =
      Except.error ValidationError.missingTimestamp ∧
    (sendStoreImpl "realm/device_id" false c3Mapping "/v" (AstarteType.integer 3)
        none { store := [], published := [] }).1 = Except.ok () ∧
    (sendStoreImpl "realm/device_id" false c3Mapping "/v" (AstarteType.integer 3)
        none { store := [], published := [] }).2.published.length = 1 := by
  decide

/-- When serialization fails, `send_store_impl`'s tail returns the payload error
and publishes nothing (the store may have been healed by the property lookup). -/
theorem sendStoreRest_serialize_error (cid : String) (m : Mapping) (p : String)
    (data : AstarteType) (ts : Option Int) (s : SendState) (e : PayloadError)
    (he : serializeIndividual m data ts = Except.error e)
    (hne : ((isPropertyStored m p data s.store).1 == some true) = false) :
    sendStoreRest cid m p data ts s =
      (Except.error (SendError.payload e),
        { s with store := (isPropertyStored m p data s.store).2 }) := by
  unfold sendStoreRest
  simp [hne, he]

/-- A property lookup can never report an `Unset` as already stored on a mapping
that does not allow unset. -/
theorem isPropertyStored_unset_ne_true (m : Mapping) (p : String)
    (st : List PropEntry) (hau : m.allowUnset = false) :
    ((isPropertyStored m p AstarteType.unset st).1 == some true) = false := by
  unfold isPropertyStored
  by_cases hP : m.isProperty = true
  · rcases hpg : (propertyGet m p st).1 with _ | v
    · simp [hP, hpg]
    · have hv := propertyGet_some_sound m p st v hpg
      have hvne : v ≠ AstarteType.unset := by
        rcases hv with hv | ⟨_, hv2⟩
        · intro hcon
          rw [hcon] at hv
          simp [tagOf] at hv
        · rw [hv2] at hau
          simp at hau
      have : (v == AstarteType.unset) = false := beq_eq_false_iff_ne.mpr hvne
      simp [hP, hpg, this]
  · simp [hP]

/-- C3 (amended): with `debug_assertions` enabled a failed validation returns the
validation error with nothing transmitted and the state untouched, for both the
individual and the object pipelines; in any build, a timestamp supplied to a
mapping with `explicit_timestamp = false` never reaches the wire, and an `Unset`
on a mapping with `allow_unset = false` returns an error with nothing
transmitted; a missing mandatory timestamp, however, is only stopped in debug
builds (see the counterexample). -/
theorem claim_C3_amended_validation_gate (cid : String) (debug : Bool)
    (m : Mapping) (p : String) (data : AstarteType) (ts : Option Int)
    (s : SendState) (e : ValidationError) (o : ObjectRefModel)
    (agg : List (String × AstarteType)) :
    (validateSendIndividual m ts = Except.error e →
      sendStoreImpl cid true m p data ts s =
        (Except.error (SendError.validation e), s)) ∧
    (ts.isSome = true → m.explicitTimestamp = false →
      (sendStoreImpl cid debug m p data ts s).2.published = s.published) ∧
    (data = AstarteType.unset → m.allowUnset = false →
      (sendStoreImpl cid debug m p data ts s).1 ≠ Except.ok () ∧
      (sendStoreImpl cid debug m p data ts s).2.published = s.published) ∧
    (validateSendObject o ts = Except.error e →
      sendObjectImpl cid true o p agg ts s =
        (Except.error (SendError.validation e), s)) := by
  refine ⟨?_, ?_, ?_, ?_⟩
  · intro hval
    unfold sendStoreImpl
    rw [hval]
    simp
  · intro hts hexp
    have hser : serializeIndividual m data ts =
        (if (data == AstarteType.unset && !m.allowUnset) = true then
          Except.error PayloadError.unsetNotAllowed
        else Except.error PayloadError.unexpectedTimestamp) := by
      unfold serializeIndividual
      by_cases hu : (data == AstarteType.unset && !m.allowUnset) = true
      · rw [if_pos hu, if_pos hu]
      · rw [if_neg hu, if_neg hu, if_pos (by simp [hts, hexp])]
    have hpub : ∀ e', serializeIndividual m data ts = Except.error e' →
        (sendStoreRest cid m p data ts s).2.published = s.published := by
      intro e' he'
      by_cases hne : ((isPropertyStored m p data s.store).1 == some true) = true
      · unfold sendStoreRest
        simp [hne]
      · rw [sendStoreRest_serialize_error cid m p data ts s e' he'
          (by simpa using hne)]
    unfold sendStoreImpl
    cases hval : validateSendIndividual m ts with
    | error e' =>
      cases debug
      · simp only [Bool.false_eq_true, if_false]
        by_cases hu : (data == AstarteType.unset && !m.allowUnset) = true
        · exact hpub _ (by rw [hser, if_pos hu])
        · exact hpub _ (by rw [hser, if_neg hu])
      · simp
    | ok u =>
      by_cases hu : (data == AstarteType.unset && !m.allowUnset) = true
      · exact hpub _ (by rw [hser, if_pos hu])
      · exact hpub _ (by rw [hser, if_neg hu])
  · intro hdata hau
    subst hdata
    have hne := isPropertyStored_unset_ne_true m p s.store hau
    have hser : serializeIndividual m AstarteType.unset ts =
        Except.error PayloadError.unsetNotAllowed := by
      unfold serializeIndividual
      rw [if_pos (by simp [hau])]
    have hrest := sendStoreRest_serialize_error cid m p AstarteType.unset ts s
      PayloadError.unsetNotAllowed hser hne
    unfold sendStoreImpl
    cases hval : validateSendIndividual m ts with
    | error e' =>
      cases debug
      · simp only [Bool.false_eq_true, if_false]
        rw [hrest]
        exact ⟨by simp, rfl⟩
      · simp
    | ok u =>
      rw [hrest]
      exact ⟨by simp, rfl⟩
  · intro hval
    unfold sendObjectImpl
    rw [hval]
    simp

/-- The mapping of the C3 amended witness: no explicit timestamp, no unset
allowed, a property. -/
def c3wMapping : Mapping :=
  { interfaceName := "com.example.P", endpoint := "/w",
    mappingType := MappingType.integer, explicitTimestamp := false,
    allowUnset := false, isProperty := true, versionMajor := 1 }

/-- The object of the C3 amended witness: no explicit timestamp. -/
def c3wObject : ObjectRefModel :=
  { interfaceName := "com.example.O", explicitTimestamp := false,
    mappings := [("k", MappingType.integer)] }

/-- Witness for the amended C3: at a mapping and object without explicit
timestamp, an unexpected timestamp and an illegal `Unset`, all four parts of the
amended claim apply. -/
theorem claim_C3_amended_witness :
    sendStoreImpl "cid" true c3wMapping "/w" AstarteType.unset (some 5)
        { store := [], published := [] } =
      (Except.error (SendError.validation ValidationError.unexpectedTimestamp),
        { store := [], published := [] }) ∧
    (sendStoreImpl "cid" false c3wMapping "/w" AstarteType.unset (some 5)
        { store := [], published := [] }).2.published = [] ∧
    ((sendStoreImpl "cid" false c3wMapping "/w" AstarteType.unset (some 5)
        { store := [], published := [] }).1 ≠ Except.ok () ∧
      (sendStoreImpl "cid" false c3wMapping "/w" AstarteType.unset (some 5)
        { store := [], published := [] }).2.published = []) ∧
    sendObjectImpl "cid" true c3wObject "/w" [("k", AstarteType.integer 4)] (some 5)
        { store := [], published := [] } =
      (Except.error (SendError.validation ValidationError.unexpectedTimestamp),
        { store := [], published := [] }) := by
  have h := claim_C3_amended_validation_gate "cid" false c3wMapping "/w"
    AstarteType.unset (some 5) { store := [], published := [] }
    ValidationError.unexpectedTimestamp c3wObject [("k", AstarteType.integer 4)]
  exact ⟨h.1 (by decide), h.2.1 (by decide) (by decide),
    h.2.2.1 (by decide) (by decide), h.2.2.2 (by decide)⟩

/-- When the lookup does not report the value as already stored, a property send
reports `Some(Err(_))`: the value must be transmitted and then stored. -/
theorem isPropertyStored_false_of_ne (m : Mapping) (p : String) (v : AstarteType)
    (st : List PropEntry) (hP : m.isProperty = true)
    (hfresh : (propertyGet m p st).1 ≠ some v) :
    isPropertyStored m p v st = (some false, (propertyGet m p st).2) := by
  unfold isPropertyStored
  rcases hpg : (propertyGet m p st).1 with _ | u
  · simp [hP, hpg]
  · have hne : (u == v) = false :=
      beq_eq_false_iff_ne.mpr (fun hc => hfresh (by rw [hpg, hc]))
    simp [hP, hpg, hne]

/-- Loading right after `store_prop` with the mapping's own major returns the
stored value unchanged, and the self-heal checks pass for a value of the
mapping's type. -/
theorem propertyGet_after_store (m : Mapping) (p : String) (v : AstarteType)
    (st : List PropEntry) (htag : tagOf v = some m.mappingType) :
    propertyGet m p (DeviceStore.storeProp st m.interfaceName p v m.versionMajor) =
      (some v, DeviceStore.storeProp st m.interfaceName p v m.versionMajor) := by
  have hvne : v ≠ AstarteType.unset := by
    intro hc
    rw [hc] at htag
    simp [tagOf] at htag
  have hfind : (DeviceStore.storeProp st m.interfaceName p v m.versionMajor).find?
      (fun e => e.interface == m.interfaceName && e.path == p) =
      some { interface := m.interfaceName, path := p, value := v,
             interfaceMajor := m.versionMajor } := by
    simp [DeviceStore.storeProp, List.find?_cons]
  have hload : DeviceStore.loadProp
      (DeviceStore.storeProp st m.interfaceName p v m.versionMajor)
      m.interfaceName p m.versionMajor =
      (some v, DeviceStore.storeProp st m.interfaceName p v m.versionMajor) := by
    unfold DeviceStore.loadProp
    rw [hfind]
    simp
  simp [propertyGet, hload, hvne, htag]

/-- A second send of an already-stored property value returns success touching
nothing. -/
theorem sendStore_noop_when_stored (cid : String) (debug : Bool) (m : Mapping)
    (p : String) (v : AstarteType) (s2 : SendState)
    (hval : validateSendIndividual m none = Except.ok ())
    (hstored : isPropertyStored m p v s2.store = (some true, s2.store)) :
    sendStoreImpl cid debug m p v none s2 = (Except.ok (), s2) := by
  simp only [sendStoreImpl, hval, sendStoreRest, hstored]
  simp

/-- C4: for a property mapping without explicit timestamp and a value of the
mapping's type not already stored, the first `send` succeeds with exactly one new
publish, and an immediately repeated `send` of the same value returns success
without transmitting and without rewriting the store (the resulting state is
exactly the state after the first call). -/
theorem claim_C4_idempotent_property_send (cid : String) (debug : Bool)
    (m : Mapping) (p : String) (v : AstarteType) (s : SendState)
    (hP : m.isProperty = true) (hts : m.explicitTimestamp = false)
    (htag : tagOf v = some m.mappingType)
    (hfresh : (propertyGet m p s.store).1 ≠ some v) :
    (sendStoreImpl cid debug m p v none s).1 = Except.ok () ∧
    (sendStoreImpl cid debug m p v none s).2.published.length =
      s.published.length + 1 ∧
    sendStoreImpl cid debug m p v none (sendStoreImpl cid debug m p v none s).2 =
      (Except.ok (), (sendStoreImpl cid debug m p v none s).2) := by
  have hvne : v ≠ AstarteType.unset := by
    intro hc
    rw [hc] at htag
    simp [tagOf] at htag
  have hval : validateSendIndividual m none = Except.ok () := by
    simp [validateSendIndividual, hts]
  have hser : serializeIndividual m v none =
      Except.ok (WirePayload.individual v none) := by
    simp [serializeIndividual, beq_eq_false_iff_ne.mpr hvne]
  have hips := isPropertyStored_false_of_ne m p v s.store hP hfresh
  have hfirst : sendStoreImpl cid debug m p v none s =
      (Except.ok (),
        { store := DeviceStore.storeProp (propertyGet m p s.store).2
            m.interfaceName p v m.versionMajor,
          published := s.published ++
            [(sendIndividualTopic cid m.interfaceName m.endpoint,
              WirePayload.individual v none)] }) := by
    simp only [sendStoreImpl, hval, sendStoreRest, hips, hser]
    simp
  refine ⟨?_, ?_, ?_⟩
  · rw [hfirst]
  · rw [hfirst]
    simp
  · rw [hfirst]
    have hpg2 := propertyGet_after_store m p v (propertyGet m p s.store).2 htag
    have hstored : isPropertyStored m p v
        (DeviceStore.storeProp (propertyGet m p s.store).2 m.interfaceName p v
          m.versionMajor) =
        (some true,
          DeviceStore.storeProp (propertyGet m p s.store).2 m.interfaceName p v
            m.versionMajor) := by
      simp [isPropertyStored, hP, hpg2]
    exact sendStore_noop_when_stored cid debug m p v _ hval hstored

/-- The mapping of the C4 witness: an integer property without explicit
timestamp. -/
def c4Mapping : Mapping :=
  { interfaceName := "com.example.DP", endpoint := "/e",
    mappingType := MappingType.integer, explicitTimestamp := false,
    allowUnset := false, isProperty := true, versionMajor := 1 }

/-- Witness for C4: starting from the empty store, the first send publishes once
and the repeated send is the identity on the reached state. -/
theorem claim_C4_witness :
    (sendStoreImpl "cid" true c4Mapping "/e" (AstarteType.integer 42) none
        { store := [], published := [] }).1 = Except.ok () ∧
    (sendStoreImpl "cid" true c4Mapping "/e" (AstarteType.integer 42) none
        { store := [], published := [] }).2.published.length =
      ({ store := [], published := [] } : SendState).published.length + 1 ∧
    sendStoreImpl "cid" true c4Mapping "/e" (AstarteType.integer 42) none
        (sendStoreImpl "cid" true c4Mapping "/e" (AstarteType.integer 42) none
          { store := [], published := [] }).2 =
      (Except.ok (),
        (sendStoreImpl "cid" true c4Mapping "/e" (AstarteType.integer 42) none
          { store := [], published := [] }).2) := by
  exact claim_C4_idempotent_property_send "cid" true c4Mapping "/e"
    (AstarteType.integer 42) { store := [], published := [] }
    (by decide) (by decide) (by decide) (by decide)

end Astarte
